import Mathlib

/-!
Shallow embedding of the knowledge-synchronization pipeline of this repository.

The embedded code:
- `src/lib/elevenlabs.ts`, function `uploadToKnowledgeBase` (upload, rag-index
  trigger and poll loop, agent-config fetch, merge, agent-config patch,
  success result object), and `deleteFromKnowledgeBase` (never called by the
  pipeline).
- `src/lib/env.ts` lines 115-143, function `withRetry` (generic retry with
  exponential backoff and retryability classification).
- `src/app/api/upload-document/route.ts`, the POST handler's read of
  `kbResult.documentId` from the pipeline result.

Remote HTTP calls are modelled by a stub client supplying the response of
each call; JavaScript objects whose field set matters are modelled as
key/value lists with an explicit `undefined` value.
-/

namespace PddHacks

/-- Status field of a rag-index response (`ragData.status` in elevenlabs.ts);
the code only distinguishes `succeeded`, `failed` and everything else, which
we collapse to `pending`. -/
inductive RagStatus where
  | pending
  | succeeded
  | failed
  deriving DecidableEq, Repr

/-- One response of the rag-index endpoint: an ok HTTP response carrying a
status payload, or a non-ok HTTP response (`!response.ok`). -/
inductive PollResponse where
  | ok (s : RagStatus)
  | err
  deriving DecidableEq, Repr

/-- One entry of the agent's `knowledge_base` array. Mirrors the object
literal built at elevenlabs.ts lines 246-251; `id` is `Option String`
because in the source it is `data.id || data.document_id`, which can be
`undefined`. -/
structure KnowledgeEntry where
  type : String
  name : String
  id : Option String
  usage_mode : String
  deriving DecidableEq, Repr

/-- The `rag` object of the agent update payload (elevenlabs.ts
lines 261-265). -/
structure RagConfig where
  enabled : Bool
  embedding_model : String
  max_documents_length : Nat
  deriving DecidableEq, Repr

/-- The agent prompt configuration relevant to the pipeline:
`conversation_config.agent.prompt` of the fetched agent, restricted to the
two fields the pipeline reads or writes. -/
structure AgentPromptConfig where
  knowledge_base : List KnowledgeEntry
  rag : RagConfig
  deriving DecidableEq, Repr

/-- The new knowledge-base entry for an uploaded document (elevenlabs.ts
lines 246-251). -/
def mkNewEntry (docName : String) (documentId : Option String) : KnowledgeEntry :=
  ⟨"file", docName, documentId, "auto"⟩

/-- The merged knowledge-base array (elevenlabs.ts lines 243-252): the spread
of the existing array followed by the single new entry. The source performs
no lookup of `documentId` in `existingKnowledgeBase` before appending. -/
def newKnowledgeBase (existing : List KnowledgeEntry) (docName : String)
    (documentId : Option String) : List KnowledgeEntry :=
  existing ++ [mkNewEntry docName documentId]

/-- The agent update payload (elevenlabs.ts lines 255-269): the merged
knowledge base together with a hard-coded `rag` block. -/
def updatePayload (existing : List KnowledgeEntry) (docName : String)
    (documentId : Option String) : AgentPromptConfig :=
  ⟨newKnowledgeBase existing docName documentId,
   ⟨true, "e5_mistral_7b_instruct", 10000⟩⟩

/-- JavaScript `a || b` on two possibly-undefined strings: `undefined` and
the empty string are falsy. Models `data.id || data.document_id`
(elevenlabs.ts line 136). -/
def jsOrString : Option String → Option String → Option String
  | some s, b => if s = "" then b else some s
  | none, b => b

/-- Polling loop of elevenlabs.ts lines 174-199. `respond k` is the response
of the k-th call to the rag-index endpoint (call 0 being the initial
trigger). Arguments: current status, the `attempts` counter so far, and the
remaining attempt budget (`maxAttempts - attempts`). While the status is
neither `succeeded` nor `failed` and budget remains, the counter is
incremented and the next response consumed; a non-ok status check leaves the
status unchanged (`if (statusResponse.ok)`). Returns the final status and
the `attempts` counter at loop exit. -/
def ragPollLoopAux (respond : Nat → PollResponse) :
    RagStatus → Nat → Nat → RagStatus × Nat
  | st, attempts, 0 => (st, attempts)
  | st, attempts, fuel + 1 =>
    if st = .succeeded ∨ st = .failed then (st, attempts)
    else
      match respond (attempts + 1) with
      | .ok s => ragPollLoopAux respond s (attempts + 1) fuel
      | .err => ragPollLoopAux respond st (attempts + 1) fuel

/-- Indexing stage of the pipeline (elevenlabs.ts lines 144-210): the trigger
call is call 0 of the rag-index endpoint; if it is non-ok the code logs and
continues without polling (`// Continue anyway`), otherwise its payload seeds
the poll loop. Returns the final observed status (`none` when the trigger
failed) and the number of status-check calls made after the trigger. -/
def indexingStage (respond : Nat → PollResponse) (maxAttempts : Nat) :
    Option RagStatus × Nat :=
  match respond 0 with
  | .err => (none, 0)
  | .ok st =>
    let r := ragPollLoopAux respond st 0 maxAttempts
    (some r.1, r.2)

/-- Total number of calls the indexing stage makes to the rag-index endpoint:
the initial trigger plus one status check per loop attempt. -/
def totalRagCalls (respond : Nat → PollResponse) (maxAttempts : Nat) : Nat :=
  (indexingStage respond maxAttempts).2 + 1

/-- Body of a successful upload response (elevenlabs.ts line 135): the id is
extracted defensively from one of two fields, and `chunk_count` may be
absent. -/
structure UploadBody where
  id : Option String
  document_id : Option String
  chunk_count : Option Nat
  deriving DecidableEq, Repr

/-- Document argument of `uploadToKnowledgeBase` (elevenlabs.ts
lines 91-95). -/
structure IngestDoc where
  name : String
  content : String
  category : Option String
  deriving DecidableEq, Repr

/-- Stub remote service: the response of each HTTP call the pipeline makes,
in pipeline order. `Except Nat` carries the HTTP status of a non-ok
response. `agentConfigured` models the `ELEVENLABS_AGENT_ID` check at
elevenlabs.ts line 213. The fetched agent config includes prior `rag`
values, which the source never reads (it only extracts
`conversation_config.agent.prompt.knowledge_base`). -/
structure StubClient where
  uploadResponse : Except Nat UploadBody
  ragRespond : Nat → PollResponse
  agentConfigured : Bool
  agentGetResponse : Except Nat AgentPromptConfig
  agentPatchResponse : Except Nat Unit

/-- Errors thrown by `uploadToKnowledgeBase`, one per `throw new Error` site,
carrying the HTTP status interpolated into the message. -/
inductive PipelineError where
  | uploadFailed (status : Nat)
  | agentNotConfigured
  | getAgentFailed (status : Nat)
  | linkFailed (status : Nat)
  deriving DecidableEq, Repr

/-- Success value of `uploadToKnowledgeBase` (elevenlabs.ts lines 301-306). -/
structure KnowledgeBaseDocument where
  id : Option String
  name : String
  status : String
  chunkCount : Option Nat
  deriving DecidableEq, Repr

/-- Remote side effects of one pipeline run. `deleteCalls` counts calls to
`deleteFromKnowledgeBase` (elevenlabs.ts lines 312-328), which
`uploadToKnowledgeBase` never invokes on any path; `patchedPayload` is the
body of the agent PATCH when one was issued. -/
structure Trace where
  uploadCalls : Nat
  deleteCalls : Nat
  patchedPayload : Option AgentPromptConfig
  deriving DecidableEq, Repr

/-- The ingestion pipeline `uploadToKnowledgeBase` of elevenlabs.ts
lines 89-307, run against a stub client: upload (throw on non-ok), extract
the document id, run the indexing stage (its outcome never affects control
flow beyond logging), check the agent id is configured, fetch the agent
config (throw on non-ok), build the merged update payload, patch the agent
(throw on non-ok), and return the result object. Returns the thrown error or
the success value, together with the side-effect trace. -/
def uploadToKnowledgeBase (client : StubClient) (doc : IngestDoc) :
    Except PipelineError KnowledgeBaseDocument × Trace :=
  match client.uploadResponse with
  | .error s => (.error (.uploadFailed s), ⟨1, 0, none⟩)
  | .ok body =>
    let documentId := jsOrString body.id body.document_id
    let _indexing := indexingStage client.ragRespond 20
    if client.agentConfigured then
      match client.agentGetResponse with
      | .error s => (.error (.getAgentFailed s), ⟨1, 0, none⟩)
      | .ok agentData =>
        let payload := updatePayload agentData.knowledge_base doc.name documentId
        match client.agentPatchResponse with
        | .error s => (.error (.linkFailed s), ⟨1, 0, some payload⟩)
        | .ok _ =>
          (.ok ⟨documentId, doc.name, "processing", body.chunk_count⟩,
           ⟨1, 0, some payload⟩)
    else
      (.error .agentNotConfigured, ⟨1, 0, none⟩)

/-- Failure-reason abstraction of the spec: a stage-1 failure is "upload",
and a failure of the configuration-synchronization stage (config fetch or
config write, the document already uploaded) is "link". -/
def failureReason : PipelineError → String
  | .uploadFailed _ => "upload"
  | .agentNotConfigured => "link"
  | .getAgentFailed _ => "link"
  | .linkFailed _ => "link"

/-- Error value caught by `withRetry` (env.ts lines 122-136): the code reads
`error?.statusCode` and `error?.code`, both possibly absent. -/
structure JsError where
  statusCode : Option Int
  code : Option String
  deriving DecidableEq, Repr

/-- Retryability classification of env.ts lines 128-132: status 429, a 5xx
status, or a connection reset/timeout code. A missing `statusCode` makes the
numeric comparisons false, as in JavaScript. -/
def isRetryable (e : JsError) : Bool :=
  e.statusCode = some 429 ||
  (match e.statusCode with
   | some sc => 500 ≤ sc && sc < 600
   | none => false) ||
  e.code = some "ECONNRESET" ||
  e.code = some "ETIMEDOUT"

/-- The retry executor `withRetry` of env.ts lines 115-143. `op k` is the
outcome of the k-th invocation of the operation. With `retries = 0` a
failure is rethrown at once (`if (retries <= 0) throw error`); otherwise a
non-retryable failure is rethrown at once, and a retryable one sleeps
`delay` ms and recurses with `retries - 1` and `delay * 2`. Returns the
final outcome, the number of invocations of the operation, and the total
milliseconds slept. -/
def withRetry (op : Nat → Except JsError α) :
    Nat → Nat → Nat → Except JsError α × Nat × Nat
  | 0, _, k =>
    match op k with
    | .ok v => (.ok v, 1, 0)
    | .error e => (.error e, 1, 0)
  | retries + 1, delay, k =>
    match op k with
    | .ok v => (.ok v, 1, 0)
    | .error e =>
      if isRetryable e then
        let r := withRetry op retries (delay * 2) (k + 1)
        (r.1, r.2.1 + 1, r.2.2 + delay)
      else
        (.error e, 1, 0)

/-- JavaScript value of a field of the pipeline result object, as far as the
upload route observes it. -/
inductive JsValue where
  | str (s : String)
  | num (n : Nat)
  | missing
  deriving DecidableEq, Repr

/-- Coercion of a possibly-undefined string field. -/
def optStr : Option String → JsValue
  | some s => .str s
  | none => .missing

/-- Coercion of a possibly-undefined numeric field. -/
def optNum : Option Nat → JsValue
  | some n => .num n
  | none => .missing

/-- The success result object of the pipeline as a JavaScript object: exactly
the four properties written at elevenlabs.ts lines 301-306. -/
def resultObject (d : KnowledgeBaseDocument) : List (String × JsValue) :=
  [("id", optStr d.id), ("name", .str d.name), ("status", .str d.status),
   ("chunkCount", optNum d.chunkCount)]

/-- JavaScript property access on an object: a missing key reads as
`undefined`. -/
def jsGet (o : List (String × JsValue)) (k : String) : JsValue :=
  match o.lookup k with
  | some v => v
  | none => .missing

/-- The value the upload route stores as `elevenLabsDocId` (route.ts
line 76): the `documentId` property of the pipeline result. -/
def routeElevenLabsDocId (d : KnowledgeBaseDocument) : JsValue :=
  jsGet (resultObject d) "documentId"

/-- Demo entry for the document already linked as "doc-1". -/
def demoEntry : KnowledgeEntry := mkNewEntry "notes.txt" (some "doc-1")

/-- Demo document argument: the end-to-end scenario input. -/
def demoDoc : IngestDoc := ⟨"notes.txt", "hello world", some "notes"⟩

/-- Fully-succeeding stub client: the upload returns id "doc-1", indexing
succeeds at once, the fetched agent has an empty knowledge base, and the
patch succeeds. -/
def fullStub : StubClient :=
  ⟨.ok ⟨some "doc-1", none, some 1⟩, fun _ => .ok .succeeded, true,
   .ok ⟨[], ⟨false, "", 0⟩⟩, .ok ()⟩

/-- Stub client whose rag-index trigger call fails while every other call
succeeds. -/
def trigFailStub : StubClient :=
  ⟨.ok ⟨some "doc-1", none, some 1⟩, fun _ => .err, true,
   .ok ⟨[], ⟨false, "", 0⟩⟩, .ok ()⟩

/-- Rag-index endpoint responses realizing the status sequence
[Pending, Pending, Succeeded]. -/
def seq3 : Nat → PollResponse :=
  fun k => if k < 2 then .ok .pending else .ok .succeeded

/-- Rag-index endpoint responses that always report a pending status. -/
def allPending : Nat → PollResponse := fun _ => .ok .pending

/-- Retryable error fixture: an HTTP 500 server error. -/
def err500 : JsError := ⟨some 500, none⟩

/-- Non-retryable error fixture: an HTTP 400 client error. -/
def err400 : JsError := ⟨some 400, none⟩

/-- Bound on the attempts counter of the polling loop: it grows by at most
the remaining fuel. -/
theorem ragPollLoopAux_le (respond : Nat → PollResponse) :
    ∀ (fuel : Nat) (st : RagStatus) (attempts : Nat),
      (ragPollLoopAux respond st attempts fuel).2 ≤ attempts + fuel := by
  intro fuel
  induction fuel with
  | zero => intro st attempts; simp [ragPollLoopAux]
  | succ n ih =>
    intro st attempts
    by_cases h : st = RagStatus.succeeded ∨ st = RagStatus.failed
    · rw [ragPollLoopAux, if_pos h]
      omega
    · rw [ragPollLoopAux, if_neg h]
      cases hr : respond (attempts + 1) with
      | ok s => exact le_trans (ih s (attempts + 1)) (by omega)
      | err => exact le_trans (ih st (attempts + 1)) (by omega)

/-- C1 counterexample: merging the entry "doc-1" into a config that already
contains an entry with id "doc-1" does not leave the entry set unchanged; it
appends a second entry, so the id "doc-1" occurs twice in the result. -/
theorem merge_duplicate_id_cex :
    ((newKnowledgeBase [demoEntry] "notes.txt" (some "doc-1")).map
        KnowledgeEntry.id).count (some "doc-1") = 2 ∧
      newKnowledgeBase [demoEntry] "notes.txt" (some "doc-1") ≠ [demoEntry] := by
  constructor
  · rfl
  · decide

/-- C1 amended: the merge of elevenlabs.ts lines 243-252 appends the new
entry unconditionally, so when the new document id is already present in the
config the merged entry list contains that id one more time than before — at
least twice — rather than being a no-op. -/
theorem merge_duplicate_id_appends (cfg : List KnowledgeEntry) (n : String)
    (d : Option String) (h : d ∈ cfg.map KnowledgeEntry.id) :
    ((newKnowledgeBase cfg n d).map KnowledgeEntry.id).count d =
        (cfg.map KnowledgeEntry.id).count d + 1 ∧
      2 ≤ ((newKnowledgeBase cfg n d).map KnowledgeEntry.id).count d := by
  have hc : ((newKnowledgeBase cfg n d).map KnowledgeEntry.id).count d =
      (cfg.map KnowledgeEntry.id).count d + 1 := by
    simp [newKnowledgeBase, mkNewEntry, List.count_append]
  refine ⟨hc, ?_⟩
  have hpos : 0 < (cfg.map KnowledgeEntry.id).count d :=
    List.count_pos_iff.mpr h
  omega

/-- Witness for merge_duplicate_id_appends at a config already holding
"doc-1". -/
theorem merge_duplicate_id_appends_witness :
    ((newKnowledgeBase [demoEntry] "notes.txt" (some "doc-1")).map
        KnowledgeEntry.id).count (some "doc-1") =
      (([demoEntry].map KnowledgeEntry.id).count (some "doc-1")) + 1 ∧
      2 ≤ ((newKnowledgeBase [demoEntry] "notes.txt" (some "doc-1")).map
        KnowledgeEntry.id).count (some "doc-1") :=
  merge_duplicate_id_appends [demoEntry] "notes.txt" (some "doc-1") (by decide)

/-- C2: against the fully-succeeding stub client, ingesting the end-to-end
scenario document returns the success result carrying the remote document id
"doc-1", and the agent config written back contains exactly one entry whose
id is "doc-1". -/
theorem ingest_end_to_end :
    (uploadToKnowledgeBase fullStub demoDoc).1 =
        .ok ⟨some "doc-1", "notes.txt", "processing", some 1⟩ ∧
      ((uploadToKnowledgeBase fullStub demoDoc).2.patchedPayload.map
        (fun p => (p.knowledge_base.map KnowledgeEntry.id).count
          (some "doc-1"))) = some 1 :=
  ⟨rfl, rfl⟩

/-- C5: when the new document id is not yet present in the fetched config,
the merged knowledge base keeps every existing entry, starts with the
existing entries in order, ends with the new entry, and is exactly one entry
longer. -/
theorem merge_preserves_entries (cfg : List KnowledgeEntry) (n : String)
    (d : Option String) (h : d ∉ cfg.map KnowledgeEntry.id) :
    (∀ e ∈ cfg, e ∈ newKnowledgeBase cfg n d) ∧
      (newKnowledgeBase cfg n d).take cfg.length = cfg ∧
      (newKnowledgeBase cfg n d).getLast? = some (mkNewEntry n d) ∧
      (newKnowledgeBase cfg n d).length = cfg.length + 1 := by
  refine ⟨?_, ?_, ?_, ?_⟩
  · intro e he
    exact List.mem_append.mpr (Or.inl he)
  · exact List.take_left cfg [mkNewEntry n d]
  · rw [newKnowledgeBase]
    exact List.getLast?_concat cfg
  · simp [newKnowledgeBase]

/-- Witness for merge_preserves_entries at the empty fetched config. -/
theorem merge_preserves_entries_witness :
    (∀ e ∈ ([] : List KnowledgeEntry),
        e ∈ newKnowledgeBase [] "notes.txt" (some "doc-1")) ∧
      (newKnowledgeBase [] "notes.txt" (some "doc-1")).take 0 = [] ∧
      (newKnowledgeBase [] "notes.txt" (some "doc-1")).getLast? =
        some (mkNewEntry "notes.txt" (some "doc-1")) ∧
      (newKnowledgeBase [] "notes.txt" (some "doc-1")).length = 0 + 1 :=
  merge_preserves_entries [] "notes.txt" (some "doc-1") (by simp)

/-- C9: every agent update payload built by the synchronization stage sets
rag.enabled to true, the embedding model to e5_mistral_7b_instruct and the
max documents length to 10000, whatever the fetched agent config held
before; accordingly every payload the pipeline patches carries exactly these
rag settings. -/
theorem write_reasserts_rag_settings :
    (∀ (agentData : AgentPromptConfig) (n : String) (d : Option String),
        (updatePayload agentData.knowledge_base n d).rag =
          ⟨true, "e5_mistral_7b_instruct", 10000⟩) ∧
      ∀ (client : StubClient) (doc : IngestDoc),
        ((uploadToKnowledgeBase client doc).2.patchedPayload.map
            AgentPromptConfig.rag).getD ⟨true, "e5_mistral_7b_instruct", 10000⟩ =
          ⟨true, "e5_mistral_7b_instruct", 10000⟩ := by
  refine ⟨fun _ _ _ => rfl, ?_⟩
  intro client doc
  obtain ⟨u, rag, ac, g, p⟩ := client
  cases u with
  | error s => rfl
  | ok body =>
    cases ac with
    | false => rfl
    | true =>
      cases g with
      | error s => rfl
      | ok agentData =>
        cases p with
        | error s => rfl
        | ok v => rfl

/-- C10: the pipeline's success result object exposes the remote document id
only under the field id (with status fixed to processing); the upload
route's read of the documentId field therefore yields undefined for every
possible result, so the persisted elevenLabsDocId is undefined rather than
the remote document id. -/
theorem route_docid_undefined :
    (∀ d : KnowledgeBaseDocument,
        routeElevenLabsDocId d = .missing ∧
          jsGet (resultObject d) "id" = optStr d.id ∧
          jsGet (resultObject d) "status" = .str d.status) ∧
      ∀ (body : UploadBody) (rag : Nat → PollResponse)
        (agentData : AgentPromptConfig) (doc : IngestDoc),
        (uploadToKnowledgeBase ⟨.ok body, rag, true, .ok agentData, .ok ()⟩
            doc).1 =
          .ok ⟨jsOrString body.id body.document_id, doc.name, "processing",
            body.chunk_count⟩ := by
  refine ⟨fun d => ⟨rfl, rfl, rfl⟩, ?_⟩
  intro body rag agentData doc
  rfl

/-- C3 counterexample: an operation that always fails with a retryable
HTTP 500 error, run through withRetry with retries = 3 (the default), is
invoked 4 times — not 3 — and the raw underlying error is rethrown with no
wrapper around it. -/
theorem retry_count_cex :
    (withRetry (fun _ => (Except.error err500 : Except JsError Unit))
        3 1000 0).2.1 = 4 ∧
      (withRetry (fun _ => (Except.error err500 : Except JsError Unit))
        3 1000 0).2.1 ≠ 3 ∧
      (withRetry (fun _ => (Except.error err500 : Except JsError Unit))
        3 1000 0).1 = .error err500 :=
  ⟨rfl, by decide, rfl⟩

/-- C3 amended: withRetry with retry budget retries and an operation that
always fails with a retryable error invokes the operation retries + 1 times
(one initial call plus retries retries; 4 calls at the default of 3), sleeps
a total of (2 ^ retries - 1) * delay milliseconds of exponential backoff,
and then rethrows the last underlying error unchanged — there is no
RemoteCallError-style wrapper in the code. -/
theorem retry_exhaustion (e : JsError) (retries delay k : Nat)
    (h : isRetryable e = true) :
    withRetry (fun _ => (Except.error e : Except JsError Unit)) retries delay k =
      (.error e, retries + 1, (2 ^ retries - 1) * delay) := by
  induction retries generalizing delay k with
  | zero => simp [withRetry]
  | succ n ih =>
    rw [withRetry]
    simp only [h, if_true]
    rw [ih (delay * 2) (k + 1)]
    simp only [Prod.mk.injEq, eq_self_iff_true, true_and]
    have h1 : 0 < 2 ^ n := pow_pos (by norm_num) n
    obtain ⟨q, hq⟩ := Nat.exists_eq_add_of_le h1
    rw [pow_succ, hq]
    have h3 : 1 + q - 1 = q := by omega
    have h4 : (1 + q) * 2 - 1 = 2 * q + 1 := by omega
    rw [h3, h4]
    ring

/-- Witness for retry_exhaustion at the HTTP 500 fixture with the default
budget of 3 retries. -/
theorem retry_exhaustion_witness :
    withRetry (fun _ => (Except.error err500 : Except JsError Unit)) 3 1000 0 =
      (.error err500, 3 + 1, (2 ^ 3 - 1) * 1000) :=
  retry_exhaustion err500 3 1000 0 (by decide)

/-- C4 counterexample: against a stub client whose rag-index trigger call
fails while every other call succeeds, the pipeline does not raise; it
proceeds to the configuration-synchronization stage, patches the agent
config, and returns the success result. -/
theorem trigger_failure_cex :
    uploadToKnowledgeBase trigFailStub demoDoc =
      (.ok ⟨some "doc-1", "notes.txt", "processing", some 1⟩,
       ⟨1, 0, some (updatePayload [] "notes.txt" (some "doc-1"))⟩) := rfl

/-- C4 amended: if the initial index-trigger call fails, the code logs the
failure and continues — no polling is performed and no error is raised; the
pipeline proceeds to the configuration-synchronization stage and, when fetch
and write succeed, completes with the success result and the patched
config. -/
theorem trigger_failure_nonfatal (body : UploadBody)
    (agentData : AgentPromptConfig) (rag : Nat → PollResponse)
    (doc : IngestDoc) (h : rag 0 = .err) :
    indexingStage rag 20 = (none, 0) ∧
      uploadToKnowledgeBase ⟨.ok body, rag, true, .ok agentData, .ok ()⟩ doc =
        (.ok ⟨jsOrString body.id body.document_id, doc.name, "processing",
          body.chunk_count⟩,
         ⟨1, 0, some (updatePayload agentData.knowledge_base doc.name
           (jsOrString body.id body.document_id))⟩) :=
  ⟨by rw [indexingStage, h], rfl⟩

/-- Witness for trigger_failure_nonfatal at an always-failing rag-index
endpoint with every other call succeeding. -/
theorem trigger_failure_nonfatal_witness :
    indexingStage (fun _ => PollResponse.err) 20 = (none, 0) ∧
      uploadToKnowledgeBase ⟨.ok ⟨some "doc-1", none, some 1⟩, fun _ => .err,
          true, .ok ⟨[], ⟨false, "", 0⟩⟩, .ok ()⟩ demoDoc =
        (.ok ⟨jsOrString (some "doc-1") none, demoDoc.name, "processing",
          some 1⟩,
         ⟨1, 0, some (updatePayload [] demoDoc.name
           (jsOrString (some "doc-1") none))⟩) :=
  trigger_failure_nonfatal ⟨some "doc-1", none, some 1⟩ ⟨[], ⟨false, "", 0⟩⟩
    (fun _ => .err) demoDoc rfl

/-- C6: the indexing monitor always terminates within the attempt budget
(the attempts counter never exceeds maxAttempts, for every response
sequence); on the status sequence [Pending, Pending, Succeeded] it ends in
status succeeded having made exactly 3 calls to the rag-index endpoint, and
on all-pending responses it stops after exactly the bounded maximum of 20
poll attempts with the status still pending (timed out, not a terminal
status). -/
theorem polling_terminates :
    (∀ (respond : Nat → PollResponse) (m : Nat),
        (indexingStage respond m).2 ≤ m) ∧
      (indexingStage seq3 20).1 = some RagStatus.succeeded ∧
      totalRagCalls seq3 20 = 3 ∧
      indexingStage allPending 20 = (some RagStatus.pending, 20) := by
  refine ⟨?_, rfl, rfl, rfl⟩
  intro respond m
  rw [indexingStage]
  cases hr : respond 0 with
  | err => simp
  | ok st => simpa using ragPollLoopAux_le respond m st 0

/-- C7: after a successful upload, a failure of the config fetch or of the
config write makes the pipeline fail with a "link"-stage error, while the
upload was invoked exactly once and no compensating delete was issued — the
remote document stays uploaded but unlinked. -/
theorem link_failure_orphan (body : UploadBody) (rag : Nat → PollResponse)
    (agentData : AgentPromptConfig) (doc : IngestDoc) (s t : Nat) :
    (uploadToKnowledgeBase ⟨.ok body, rag, true, .error s, .ok ()⟩ doc).1 =
        .error (.getAgentFailed s) ∧
      failureReason (.getAgentFailed s) = "link" ∧
      (uploadToKnowledgeBase ⟨.ok body, rag, true, .error s, .ok ()⟩
        doc).2.uploadCalls = 1 ∧
      (uploadToKnowledgeBase ⟨.ok body, rag, true, .error s, .ok ()⟩
        doc).2.deleteCalls = 0 ∧
      (uploadToKnowledgeBase ⟨.ok body, rag, true, .ok agentData, .error t⟩
        doc).1 = .error (.linkFailed t) ∧
      failureReason (.linkFailed t) = "link" ∧
      (uploadToKnowledgeBase ⟨.ok body, rag, true, .ok agentData, .error t⟩
        doc).2.uploadCalls = 1 ∧
      (uploadToKnowledgeBase ⟨.ok body, rag, true, .ok agentData, .error t⟩
        doc).2.deleteCalls = 0 :=
  ⟨rfl, rfl, rfl, rfl, rfl, rfl, rfl, rfl⟩

/-- C8: an operation whose failure is classified non-retryable (not 429, not
5xx, not a connection reset/timeout) is invoked exactly once by withRetry,
its error surfaces immediately, and no backoff delay is slept, whatever the
retry budget and delay. -/
theorem nonretryable_short_circuit (e : JsError) (retries delay k : Nat)
    (h : isRetryable e = false) :
    withRetry (fun _ => (Except.error e : Except JsError Unit)) retries delay k =
      (.error e, 1, 0) := by
  cases retries with
  | zero => rfl
  | succ n =>
    rw [withRetry]
    simp [h]

/-- Witness for nonretryable_short_circuit at an HTTP 400 client error. -/
theorem nonretryable_short_circuit_witness :
    withRetry (fun _ => (Except.error err400 : Except JsError Unit)) 3 1000 0 =
      (.error err400, 1, 0) :=
  nonretryable_short_circuit err400 3 1000 0 (by decide)

end PddHacks
